import Mathlib

/-!
Verification of the calendaraid-plus event-management application.

The data model and operations below are shallow embeddings of:
- the SQL schema, row-level-security policies and triggers of the two
  migration files (tables events, event_registrations, profiles,
  event_notifications; policies; update_updated_at_column and
  handle_new_user trigger functions);
- the client components EventDetails.tsx (registration interface) and
  the Calendar component (fetchEvents query).

Timestamps are modelled as naturals, UUIDs as naturals, JSONB payloads as
strings. SQL NULL is modelled with Option; SQL tri-valued equality on
nullable columns reduces to a Bool that is false when either side is NULL,
exactly as a row-level-security USING clause treats a NULL condition.
-/

namespace CalendarAid

abbrev UserId := Nat
abbrev EventId := Nat
abbrev Time := Nat

/-- Row of `public.events` (migration file, CREATE TABLE public.events).
`max_attendees INTEGER` is nullable, `created_by` and `is_public` are
nullable, `is_public BOOLEAN DEFAULT true`. -/
structure EventRow where
  id : EventId
  title : String
  description : Option String
  start_time : Time
  end_time : Time
  location : Option String
  max_attendees : Option Int
  created_by : Option UserId
  created_at : Time
  updated_at : Time
  is_public : Option Bool
  event_type : String
  metadata : String
deriving Repr, DecidableEq

/-- Row of `public.event_registrations`:
`status TEXT DEFAULT 'registered' CHECK (status IN ('registered',
'cancelled', 'waitlist'))`, `UNIQUE(event_id, user_id)`. -/
structure RegistrationRow where
  id : Nat
  event_id : EventId
  user_id : UserId
  registered_at : Time
  status : String
deriving Repr, DecidableEq

/-- Row of `public.profiles` (`user_id` UNIQUE NOT NULL). The JSONB
notification_preferences column is kept as an opaque string. -/
structure ProfileRow where
  id : Nat
  user_id : UserId
  display_name : Option String
  email : Option String
  avatar_url : Option String
  notification_preferences : String
  created_at : Time
  updated_at : Time
deriving Repr, DecidableEq

/-- Row of `public.event_notifications`:
`notification_type TEXT NOT NULL CHECK (notification_type IN
('reminder', 'change', 'cancellation'))`. -/
structure NotificationRow where
  id : Nat
  event_id : EventId
  user_id : UserId
  notification_type : String
  message : String
  scheduled_for : Time
  sent_at : Option Time
  created_at : Time
deriving Repr, DecidableEq

/-- Row of `auth.users` as consumed by the handle_new_user trigger:
`NEW.id`, `NEW.email`, and `NEW.raw_user_meta_data ->> 'display_name'`
(the `->>` extraction is nullable, as is the email column). -/
structure AuthUser where
  id : UserId
  email : Option String
  raw_meta_display_name : Option String
deriving Repr, DecidableEq

/-- The persistent store: the four public tables plus `auth.users`. -/
structure Store where
  users : List AuthUser
  events : List EventRow
  event_registrations : List RegistrationRow
  profiles : List ProfileRow
  event_notifications : List NotificationRow
deriving Repr, DecidableEq

/-- SQL equality `a = b` on nullable uuid columns, reduced to the Bool a
row-level-security clause yields: NULL on either side is not a match. -/
def sqlEqU : Option UserId → Option UserId → Bool
  | some a, some b => a == b
  | _, _ => false

/-! ## Row-level-security policies (migration file, CREATE POLICY ...) -/

/-- Events SELECT: `USING (is_public = true)` OR-combined with
`USING (auth.uid() = created_by)`. -/
def events_select_policy (uid : Option UserId) (e : EventRow) : Bool :=
  (e.is_public == some true) || sqlEqU uid e.created_by

/-- Events INSERT: `WITH CHECK (auth.uid() = created_by)`. -/
def events_insert_check (uid : Option UserId) (e : EventRow) : Bool :=
  sqlEqU uid e.created_by

/-- Events UPDATE: `USING (auth.uid() = created_by)`. -/
def events_update_policy (uid : Option UserId) (e : EventRow) : Bool :=
  sqlEqU uid e.created_by

/-- Events DELETE: `USING (auth.uid() = created_by)`. -/
def events_delete_policy (uid : Option UserId) (e : EventRow) : Bool :=
  sqlEqU uid e.created_by

/-- Registrations SELECT: own rows, OR-combined with the policy letting an
event creator view all registrations of their events (EXISTS subquery). -/
def regs_select_policy (uid : Option UserId) (s : Store) (r : RegistrationRow) : Bool :=
  sqlEqU uid (some r.user_id) ||
    s.events.any (fun e => e.id == r.event_id && sqlEqU uid e.created_by)

/-- Registrations INSERT: `WITH CHECK (auth.uid() = user_id)`. -/
def regs_insert_check (uid : Option UserId) (r : RegistrationRow) : Bool :=
  sqlEqU uid (some r.user_id)

/-- Registrations UPDATE/DELETE: `USING (auth.uid() = user_id)`. -/
def regs_write_policy (uid : Option UserId) (r : RegistrationRow) : Bool :=
  sqlEqU uid (some r.user_id)

/-- Profiles SELECT/INSERT/UPDATE: `auth.uid() = user_id`. -/
def profiles_policy (uid : Option UserId) (p : ProfileRow) : Bool :=
  sqlEqU uid (some p.user_id)

/-- Notifications SELECT: `USING (auth.uid() = user_id)`. -/
def notifs_select_policy (uid : Option UserId) (n : NotificationRow) : Bool :=
  sqlEqU uid (some n.user_id)

/-- Notifications INSERT: `WITH CHECK (true)`. -/
def notifs_insert_check (_uid : Option UserId) (_n : NotificationRow) : Bool :=
  true

/-- CHECK constraint on event_registrations.status. -/
def valid_reg_status (st : String) : Bool :=
  st == "registered" || st == "cancelled" || st == "waitlist"

/-- CHECK constraint on event_notifications.notification_type. -/
def valid_notif_type (ty : String) : Bool :=
  ty == "reminder" || ty == "change" || ty == "cancellation"

/-! ## Store operations -/

inductive StoreError where
  | policyViolation
  | uniqueViolation
  | checkViolation
deriving Repr, DecidableEq

/-- Policy-filtered read of the events table. -/
def selectEvents (uid : Option UserId) (s : Store) : List EventRow :=
  s.events.filter (events_select_policy uid)

/-- Policy-filtered read of the registrations table. -/
def selectRegs (uid : Option UserId) (s : Store) : List RegistrationRow :=
  s.event_registrations.filter (regs_select_policy uid s)

/-- Policy-filtered read of the notifications table. -/
def selectNotifs (uid : Option UserId) (s : Store) : List NotificationRow :=
  s.event_notifications.filter (notifs_select_policy uid)

/-- Modelled from the spec: the store engine enforcing the policies is the
managed backend, not code of this repository; per the spec, a write
violating its policy "is rejected atomically by the store before any side
effect is visible; the caller observes a policy-violation error".  Insert
into events: WITH CHECK, then append. -/
def insertEvent (uid : Option UserId) (e : EventRow) (s : Store) :
    Except StoreError Store :=
  if events_insert_check uid e then
    .ok { s with events := s.events ++ [e] }
  else
    .error .policyViolation

/-- Modelled from the spec (store engine, as for insertEvent): insert into
event_registrations, checking the INSERT policy, the UNIQUE(event_id,
user_id) constraint and the status CHECK constraint of the schema. -/
def insertRegistration (uid : Option UserId) (r : RegistrationRow) (s : Store) :
    Except StoreError Store :=
  if ¬ regs_insert_check uid r then
    .error .policyViolation
  else if s.event_registrations.any
      (fun r0 => r0.event_id == r.event_id && r0.user_id == r.user_id) then
    .error .uniqueViolation
  else if ¬ valid_reg_status r.status then
    .error .checkViolation
  else
    .ok { s with event_registrations := s.event_registrations ++ [r] }

/-- Modelled from the spec (store engine): insert into profiles under the
caller's own policy, checking also UNIQUE(user_id). -/
def insertProfile (uid : Option UserId) (p : ProfileRow) (s : Store) :
    Except StoreError Store :=
  if ¬ profiles_policy uid p then
    .error .policyViolation
  else if s.profiles.any (fun p0 => p0.user_id == p.user_id) then
    .error .uniqueViolation
  else
    .ok { s with profiles := s.profiles ++ [p] }

/-- Modelled from the spec (store engine): insert into event_notifications;
the INSERT policy is WITH CHECK (true), only the type CHECK constraint
applies. -/
def insertNotif (uid : Option UserId) (n : NotificationRow) (s : Store) :
    Except StoreError Store :=
  if ¬ notifs_insert_check uid n then
    .error .policyViolation
  else if ¬ valid_notif_type n.notification_type then
    .error .checkViolation
  else
    .ok { s with event_notifications := s.event_notifications ++ [n] }

/-- Trigger function update_updated_at_column (`NEW.updated_at = now();
RETURN NEW;`) as fired BEFORE UPDATE ON public.events. -/
def update_updated_at_column (now : Time) (new : EventRow) : EventRow :=
  { new with updated_at := now }

/-- The same trigger function as fired BEFORE UPDATE ON public.profiles. -/
def update_updated_at_column_profile (now : Time) (new : ProfileRow) : ProfileRow :=
  { new with updated_at := now }

/-- Modelled from the spec (store engine): update of events rows matched by
`pred`, replacing each by the caller-supplied NEW row `f e` after the
BEFORE UPDATE trigger; a targeted row outside the caller's UPDATE policy
makes the write a policy violation. -/
def updateEvents (uid : Option UserId) (pred : EventRow → Bool)
    (f : EventRow → EventRow) (now : Time) (s : Store) :
    Except StoreError Store :=
  if s.events.any (fun e => pred e && !(events_update_policy uid e)) then
    .error .policyViolation
  else
    .ok { s with events :=
      s.events.map (fun e =>
        if pred e then update_updated_at_column now (f e) else e) }

/-- Modelled from the spec (store engine): update of profiles rows, with
the profiles BEFORE UPDATE trigger applied. -/
def updateProfiles (uid : Option UserId) (pred : ProfileRow → Bool)
    (f : ProfileRow → ProfileRow) (now : Time) (s : Store) :
    Except StoreError Store :=
  if s.profiles.any (fun p => pred p && !(profiles_policy uid p)) then
    .error .policyViolation
  else
    .ok { s with profiles :=
      s.profiles.map (fun p =>
        if pred p then update_updated_at_column_profile now (f p) else p) }

/-- Removal of an event together with its children, per the schema's
`event_id UUID REFERENCES public.events(id) ON DELETE CASCADE` on both
event_registrations and event_notifications. -/
def cascadeDeleteEvent (eid : EventId) (s : Store) : Store :=
  { s with
    events := s.events.filter (fun e => !(e.id == eid)),
    event_registrations :=
      s.event_registrations.filter (fun r => !(r.event_id == eid)),
    event_notifications :=
      s.event_notifications.filter (fun n => !(n.event_id == eid)) }

/-- Modelled from the spec (store engine): DELETE FROM events WHERE id =
eid; a targeted row outside the DELETE policy is a policy violation,
otherwise the row is removed with ON DELETE CASCADE to registrations and
notifications. -/
def deleteEvents (uid : Option UserId) (eid : EventId) (s : Store) :
    Except StoreError Store :=
  if s.events.any (fun e => e.id == eid && !(events_delete_policy uid e)) then
    .error .policyViolation
  else if s.events.any (fun e => e.id == eid) then
    .ok (cascadeDeleteEvent eid s)
  else
    .ok s

/-- Modelled from the spec (store engine): DELETE FROM event_registrations
WHERE id = rid (the EventDetails handleUnregister call). -/
def deleteRegistration (uid : Option UserId) (rid : Nat) (s : Store) :
    Except StoreError Store :=
  if s.event_registrations.any
      (fun r => r.id == rid && !(regs_write_policy uid r)) then
    .error .policyViolation
  else
    .ok { s with event_registrations :=
      s.event_registrations.filter (fun r => !(r.id == rid)) }

/-- Run a write, keeping the prior state and surfacing the error when the
write is rejected. -/
def applyWrite (op : Store → Except StoreError Store) (s : Store) :
    Store × Option StoreError :=
  match op s with
  | .ok s2 => (s2, none)
  | .error err => (s, some err)

/-! ## Triggers on auth.users -/

/-- Trigger function handle_new_user: `INSERT INTO public.profiles
(user_id, display_name, email) VALUES (NEW.id,
COALESCE(NEW.raw_user_meta_data ->> 'display_name', NEW.email),
NEW.email);`.  Runs SECURITY DEFINER, so no row policy applies; the
server-side defaults fill id, the preferences JSONB and the timestamps. -/
def handle_new_user (pid : Nat) (t : Time) (u : AuthUser) (s : Store) : Store :=
  { s with profiles := s.profiles ++ [{
      id := pid,
      user_id := u.id,
      display_name := u.raw_meta_display_name <|> u.email,
      email := u.email,
      avatar_url := none,
      notification_preferences :=
        "\x7b\"email\": true, \"push\": false, \"reminder_times\": [24, 1]\x7d",
      created_at := t,
      updated_at := t }] }

/-- Identity creation: INSERT INTO auth.users firing the AFTER INSERT
trigger on_auth_user_created; the UNIQUE constraints of auth.users.id and
profiles.user_id abort the whole transaction when violated. -/
def createUser (pid : Nat) (t : Time) (u : AuthUser) (s : Store) :
    Except StoreError Store :=
  if s.users.any (fun v => v.id == u.id) then
    .error .uniqueViolation
  else if s.profiles.any (fun p => p.user_id == u.id) then
    .error .uniqueViolation
  else
    .ok (handle_new_user pid t u { s with users := s.users ++ [u] })

/-! ## EventDetails.tsx: the registration interface -/

/-- fetchRegistrationInfo, first query: the caller's own registration
matching `event_id`, `user_id` and `status = "registered"` (the `.single()`
row, none when no such row exists; the SELECT policy passes since the
row's user_id is the caller's). -/
def userRegistration (uid : UserId) (eid : EventId) (s : Store) :
    Option RegistrationRow :=
  s.event_registrations.find?
    (fun r => r.event_id == eid && r.user_id == uid && r.status == "registered")

/-- fetchRegistrationInfo, second query: exact count of rows with this
event_id and status = "registered".  The query runs as the caller, so the
event_registrations SELECT policies apply: only the caller's own rows and
the rows of events the caller created are counted, not the whole table. -/
def registeredCount (uid : UserId) (eid : EventId) (s : Store) : Nat :=
  ((selectRegs (some uid) s).filter
    (fun r => r.event_id == eid && r.status == "registered")).length

/-- The number of status = "registered" rows an event actually has in the
table: the measure the capacity contract speaks about, independent of any
caller's row visibility. -/
def totalRegistered (eid : EventId) (s : Store) : Nat :=
  (s.event_registrations.filter
    (fun r => r.event_id == eid && r.status == "registered")).length

/-- The render guard `const isEventCreator = currentUserId === event.created_by;` -/
def isEventCreator (uid : UserId) (e : EventRow) : Bool :=
  some uid == e.created_by

/-- The render guard `const canRegister = !registration && event.is_public
&& !isEventCreator;` — JavaScript truthiness: a NULL is_public is falsy. -/
def canRegister (registr : Option RegistrationRow) (e : EventRow)
    (uid : UserId) : Bool :=
  registr.isNone && (e.is_public == some true) && !(isEventCreator uid e)

/-- The render guard `const isFull = event.max_attendees &&
registrationCount >= event.max_attendees;` — JavaScript truthiness: both a
NULL and a zero max_attendees make the conjunction falsy, so isFull is
false for them. -/
def isFull (e : EventRow) (count : Nat) : Bool :=
  match e.max_attendees with
  | none => false
  | some m => if m == 0 then false else decide ((count : Int) ≥ m)

/-- The enabled Register button of the render: shown exactly when
`canRegister && !isFull` (with `canRegister && isFull` only a disabled
Event Full button is shown). -/
def registerOffered (uid : UserId) (e : EventRow) (s : Store) : Bool :=
  canRegister (userRegistration uid e.id s) e uid &&
    !(isFull e (registeredCount uid e.id s))

/-- One interface-level registration attempt: uid, the fresh row id the
server would assign, and the attempt time. -/
structure RegAttempt where
  uid : UserId
  rid : Nat
  t : Time
deriving Repr, DecidableEq

/-- A registration attempt through the EventDetails interface: when the
Register button is offered, handleRegister inserts a row with the event
id, the caller's user_id and status "registered"; a store rejection
(surfaced as a toast) leaves the state unchanged. -/
def attemptRegister (e : EventRow) (a : RegAttempt) (s : Store) : Store :=
  if registerOffered a.uid e s then
    match insertRegistration (some a.uid)
        { id := a.rid, event_id := e.id, user_id := a.uid,
          registered_at := a.t, status := "registered" } s with
    | .ok s2 => s2
    | .error _ => s
  else s

/-- A sequence of sequential registration attempts for one event, each
re-reading the store state left by the previous one. -/
def runAttempts (e : EventRow) (l : List RegAttempt) (s : Store) : Store :=
  l.foldl (fun s1 a => attemptRegister e a s1) s

/-! ## Calendar component: fetchEvents -/

/-- Calendar.fetchEvents: select events (policy-filtered) with
`event_registrations!inner(count)` (an inner join against the
registration rows visible to the caller), `.gte("start_time", now)`,
`.order("start_time", ascending)`. -/
def fetchEvents (uid : Option UserId) (now : Time) (s : Store) :
    List EventRow :=
  (((selectEvents uid s).filter (fun e => decide (now ≤ e.start_time))).filter
      (fun e => (selectRegs uid s).any (fun r => r.event_id == e.id))).mergeSort
    (fun a b => decide (a.start_time ≤ b.start_time))

/-! ## Derived predicates and concrete fixtures -/

/-- At most one registration row per (event_id, user_id): any two distinct
rows of the table differ in their pair. -/
def regUnique (s : Store) : Prop :=
  s.event_registrations.Pairwise
    (fun r1 r2 => ¬ (r1.event_id = r2.event_id ∧ r1.user_id = r2.user_id))

instance (s : Store) : Decidable (regUnique s) := by
  unfold regUnique
  exact List.instDecidablePairwise _

def emptyStore : Store :=
  { users := [], events := [], event_registrations := [], profiles := [],
    event_notifications := [] }

def sampleEvent : EventRow :=
  { id := 1, title := "Launch", description := none, start_time := 100,
    end_time := 200, location := none, max_attendees := none,
    created_by := some 2, created_at := 0, updated_at := 0,
    is_public := some true, event_type := "general",
    metadata := "\x7b\x7d" }

def sampleReg : RegistrationRow :=
  { id := 5, event_id := 1, user_id := 3, registered_at := 10,
    status := "registered" }

def sampleProfile : ProfileRow :=
  { id := 4, user_id := 2, display_name := some "Sam", email := some "s@x",
    avatar_url := none, notification_preferences := "\x7b\x7d",
    created_at := 0, updated_at := 0 }

def sampleNotif : NotificationRow :=
  { id := 6, event_id := 1, user_id := 3, notification_type := "reminder",
    message := "soon", scheduled_for := 90, sent_at := none,
    created_at := 0 }

def sampleUser : AuthUser :=
  { id := 1, email := some "a@b", raw_meta_display_name := none }

/-- Caller-supplied NEW event row of the C5 scenario (updated_at 999). -/
def sampleEventReq : EventRow :=
  { sampleEvent with title := "New", updated_at := 999 }

/-- The event row as stored after the trigger of the C5 scenario. -/
def sampleEventUpd : EventRow :=
  { sampleEvent with title := "New", updated_at := 5 }

/-- Caller-supplied NEW profile row of the C5 scenario (updated_at 999). -/
def sampleProfileReq : ProfileRow :=
  { sampleProfile with display_name := some "N", updated_at := 999 }

/-- The profile row as stored after the trigger of the C5 scenario. -/
def sampleProfileUpd : ProfileRow :=
  { sampleProfile with display_name := some "N", updated_at := 5 }

/-- A registration belonging to a different event (id 2). -/
def regOther : RegistrationRow :=
  { sampleReg with id := 7, event_id := 2 }

/-- A notification belonging to a different event (id 2). -/
def notifOther : NotificationRow :=
  { sampleNotif with id := 8, event_id := 2 }

/-- Store of the C6 scenario: event 1 with children, plus children of
event 2. -/
def storeC6 : Store :=
  { emptyStore with
      events := [sampleEvent],
      event_registrations := [sampleReg, regOther],
      event_notifications := [sampleNotif, notifOther] }

/-- The C6 store after the creator deletes event 1. -/
def storeC6del : Store :=
  { emptyStore with
      event_registrations := [regOther],
      event_notifications := [notifOther] }

/-- Store of the C8 scenario: one event, profile and registration all
owned by users other than the caller. -/
def storeC8 : Store :=
  { emptyStore with
      events := [sampleEvent],
      profiles := [sampleProfile],
      event_registrations := [sampleReg] }

/-- Store of the C9 scenario: one public future event with one
registration by user 3. -/
def storeC9 : Store :=
  { emptyStore with
      events := [sampleEvent],
      event_registrations := [sampleReg] }

end CalendarAid

namespace CalendarAid

/-! ## Helper lemmas -/

theorem sqlEqU_some_left {u : UserId} {b : Option UserId} :
    sqlEqU (some u) b = true ↔ b = some u := by
  cases b with
  | none => simp [sqlEqU]
  | some a =>
    simp only [sqlEqU, beq_iff_eq, Option.some_inj]
    exact ⟨fun h => h.symm, fun h => h.symm⟩

theorem sqlEqU_true {a b : Option UserId} :
    sqlEqU a b = true ↔ ∃ u, a = some u ∧ b = some u := by
  cases a with
  | none => simp [sqlEqU]
  | some u =>
    cases b with
    | none => simp [sqlEqU]
    | some v =>
      simp only [sqlEqU, beq_iff_eq, Option.some_inj]
      constructor
      · intro h
        exact ⟨u, rfl, h.symm⟩
      · rintro ⟨w, hw, hv⟩
        cases hw
        exact hv.symm

theorem insertRegistration_ok {uid : Option UserId} {r : RegistrationRow}
    {s s2 : Store} (h : insertRegistration uid r s = .ok s2) :
    s2 = { s with event_registrations := s.event_registrations ++ [r] } ∧
    sqlEqU uid (some r.user_id) = true ∧
    (∀ r0 ∈ s.event_registrations,
      ¬ (r0.event_id = r.event_id ∧ r0.user_id = r.user_id)) := by
  unfold insertRegistration at h
  split_ifs at h with h1 h2 h3 <;> cases h
  refine ⟨rfl, h1, ?_⟩
  rintro r0 hr0 ⟨he, hu⟩
  exact h2 (List.any_eq_true.mpr ⟨r0, hr0, by simp [he, hu]⟩)

/-! ## Claim theorems -/

/-- C2: through the policy-filtered read, an event row is returned to an
authenticated caller exactly when is_public = true or the caller is its
creator; in particular an event with is_public = false is never returned
to a caller who is not its creator. -/
theorem private_events_hidden (uid : Option UserId) (s : Store)
    (e : EventRow) :
    (e ∈ selectEvents uid s ↔
      e ∈ s.events ∧ (e.is_public = some true ∨
        (∃ u, uid = some u ∧ e.created_by = some u))) ∧
    (∀ u : UserId, e.is_public = some false → e.created_by ≠ some u →
      e ∉ selectEvents (some u) s) := by
  have hiff : ∀ v : Option UserId, e ∈ selectEvents v s ↔
      e ∈ s.events ∧ (e.is_public = some true ∨
        (∃ u, v = some u ∧ e.created_by = some u)) := by
    intro v
    simp [selectEvents, List.mem_filter, events_select_policy,
      sqlEqU_true, beq_iff_eq]
  refine ⟨hiff uid, ?_⟩
  intro u hpriv hne hmem
  rcases ((hiff (some u)).mp hmem).2 with h | h
  · simp [hpriv] at h
  · rcases h with ⟨w, hw1, hw2⟩
    injection hw1 with hw1
    rw [hw1] at hne
    exact hne hw2

/-- C2 witness: a private event of user 2 is not readable by user 1. -/
theorem private_events_hidden_witness :
    { sampleEvent with is_public := some false } ∉
      selectEvents (some 1)
        { emptyStore with
            events := [{ sampleEvent with is_public := some false }] } :=
  (private_events_hidden (some 1)
      { emptyStore with
          events := [{ sampleEvent with is_public := some false }] }
      { sampleEvent with is_public := some false }).2 1 rfl (by decide)

/-- C3: under the UNIQUE(event_id, user_id) constraint, the table keeps at
most one registration row per pair, and an insert whose pair is already
present is rejected and adds no row. -/
theorem duplicate_registration_rejected (uid : Option UserId)
    (r : RegistrationRow) (s : Store) (h : regUnique s) :
    regUnique (applyWrite (insertRegistration uid r) s).1 ∧
    ((∃ r0 ∈ s.event_registrations,
        r0.event_id = r.event_id ∧ r0.user_id = r.user_id) →
      (applyWrite (insertRegistration uid r) s).1 = s ∧
      (applyWrite (insertRegistration uid r) s).2.isSome = true) := by
  unfold applyWrite
  cases hres : insertRegistration uid r s with
  | error err => exact ⟨h, fun _ => ⟨rfl, rfl⟩⟩
  | ok s2 =>
    obtain ⟨hs2, hpol, hnodup⟩ := insertRegistration_ok hres
    subst hs2
    constructor
    · unfold regUnique at h ⊢
      show (s.event_registrations ++ [r]).Pairwise _
      rw [List.pairwise_append]
      refine ⟨h, List.pairwise_singleton _ _, ?_⟩
      intro a ha b hb
      rw [List.mem_singleton] at hb
      subst hb
      exact fun hp => hnodup a ha hp
    · rintro ⟨r0, hr0, he, hu⟩
      exact absurd ⟨he, hu⟩ (hnodup r0 hr0)

/-- C3 witness: inserting a second row for the pair (event 1, user 3) with
a fresh row id is rejected and leaves the table unchanged. -/
theorem duplicate_registration_rejected_witness :
    (applyWrite (insertRegistration (some 3) { sampleReg with id := 9 })
        { emptyStore with event_registrations := [sampleReg] }).1 =
      { emptyStore with event_registrations := [sampleReg] } ∧
    (applyWrite (insertRegistration (some 3) { sampleReg with id := 9 })
        { emptyStore with event_registrations := [sampleReg] }).2.isSome
      = true :=
  (duplicate_registration_rejected (some 3) { sampleReg with id := 9 }
      { emptyStore with event_registrations := [sampleReg] } (by decide)).2
    ⟨sampleReg, by simp, rfl, rfl⟩

/-- C1: the capacity contract fails in the code.  For event 1 with
max_attendees = 1 and creator 2, sequential registration attempts by
users 3 and 4 starting from an empty registrations table both succeed:
each caller fetches a policy-filtered count (their own rows plus rows of
events they created), which is 0 for both, so the fullness check never
fires and the table ends with 2 status = "registered" rows, exceeding
the capacity 1. -/
theorem capacity_check_ineffective :
    ({ sampleEvent with max_attendees := some 1 } : EventRow).max_attendees
      = some 1 ∧
    registeredCount 3 1
        { emptyStore with
            events := [{ sampleEvent with max_attendees := some 1 }] }
      = 0 ∧
    registeredCount 4 1
        (runAttempts { sampleEvent with max_attendees := some 1 }
          [{ uid := 3, rid := 9, t := 50 }]
          { emptyStore with
              events := [{ sampleEvent with max_attendees := some 1 }] })
      = 0 ∧
    totalRegistered 1
        (runAttempts { sampleEvent with max_attendees := some 1 }
          [{ uid := 3, rid := 9, t := 50 }, { uid := 4, rid := 10, t := 60 }]
          { emptyStore with
              events := [{ sampleEvent with max_attendees := some 1 }] })
      = 2 ∧
    1 < totalRegistered 1
        (runAttempts { sampleEvent with max_attendees := some 1 }
          [{ uid := 3, rid := 9, t := 50 }, { uid := 4, rid := 10, t := 60 }]
          { emptyStore with
              events := [{ sampleEvent with max_attendees := some 1 }] }) := by
  exact ⟨rfl, by decide, by decide, by decide, by decide⟩

/-- C4: identity creation runs handle_new_user, leaving exactly one
profile row for the new identity, its email copied from the identity and
its display_name the metadata display_name when present, the identity's
email otherwise (COALESCE). -/
theorem new_user_profile (pid : Nat) (t : Time) (u : AuthUser) (s s2 : Store)
    (hok : createUser pid t u s = .ok s2) :
    (s2.profiles.filter (fun p => p.user_id == u.id)).length = 1 ∧
    (∀ p ∈ s2.profiles, p.user_id = u.id →
      p.email = u.email ∧
      p.display_name = match u.raw_meta_display_name with
        | some d => some d
        | none => u.email) := by
  unfold createUser at hok
  split_ifs at hok with h1 h2 <;> cases hok
  constructor
  · unfold handle_new_user
    simp only [List.filter_append]
    have hnil : s.profiles.filter (fun p => p.user_id == u.id) = [] := by
      rw [List.filter_eq_nil_iff]
      intro p hp hbeq
      exact h2 (List.any_eq_true.mpr ⟨p, hp, hbeq⟩)
    rw [hnil]
    simp
  · intro p hp hpu
    unfold handle_new_user at hp
    simp only [List.mem_append, List.mem_singleton] at hp
    rcases hp with hp | hp
    · exact absurd (List.any_eq_true.mpr ⟨p, hp, by simp [hpu]⟩) h2
    · subst hp
      refine ⟨rfl, ?_⟩
      cases hd : u.raw_meta_display_name with
      | none => simp [hd, Option.orElse]
      | some d => simp [hd, Option.orElse]

/-- C4 witness: creating identity 1 with no metadata display_name yields
one profile with its email as display_name. -/
theorem new_user_profile_witness :
    (((handle_new_user 7 3 sampleUser
        { emptyStore with users := [sampleUser] }).profiles.filter
        (fun p => p.user_id == 1)).length = 1) ∧
    (∀ p ∈ (handle_new_user 7 3 sampleUser
        { emptyStore with users := [sampleUser] }).profiles,
      p.user_id = 1 →
      p.email = some "a@b" ∧
      p.display_name = match (none : Option String) with
        | some d => some d
        | none => some "a@b") :=
  new_user_profile 7 3 sampleUser emptyStore
    (handle_new_user 7 3 sampleUser
      { emptyStore with users := [sampleUser] })
    rfl

/-- C5: every update to an event or profile row stores the caller-supplied
NEW row with its updated_at overwritten by the trigger to the current
time, whatever value the caller supplied; when the current time is later
than the row's prior updated_at, the stored updated_at strictly
increases. -/
theorem updated_at_overwritten (uid : Option UserId) (pred : EventRow → Bool)
    (f : EventRow → EventRow) (ppred : ProfileRow → Bool)
    (g : ProfileRow → ProfileRow) (now : Time) (s s2 s3 : Store)
    (e : EventRow) (p : ProfileRow)
    (hok : updateEvents uid pred f now s = .ok s2)
    (hpok : updateProfiles uid ppred g now s = .ok s3)
    (he : e ∈ s.events) (hpred : pred e = true)
    (hp : p ∈ s.profiles) (hppred : ppred p = true)
    (hlt : e.updated_at < now) :
    update_updated_at_column now (f e) ∈ s2.events ∧
    (update_updated_at_column now (f e)).updated_at = now ∧
    update_updated_at_column_profile now (g p) ∈ s3.profiles ∧
    (update_updated_at_column_profile now (g p)).updated_at = now ∧
    e.updated_at < (update_updated_at_column now (f e)).updated_at := by
  unfold updateEvents at hok
  split_ifs at hok with h1 <;> cases hok
  unfold updateProfiles at hpok
  split_ifs at hpok with h2 <;> cases hpok
  refine ⟨?_, rfl, ?_, rfl, hlt⟩
  · have hmm := List.mem_map_of_mem
      (fun e0 => if pred e0 then update_updated_at_column now (f e0) else e0) he
    simpa [hpred] using hmm
  · have hmm := List.mem_map_of_mem
      (fun p0 => if ppred p0 then update_updated_at_column_profile now (g p0) else p0) hp
    simpa [hppred] using hmm

/-- C5 witness: user 2 updates the title of their event and the
display_name of their profile at time 5 while supplying updated_at = 999;
the stored rows carry updated_at = 5, strictly above the prior 0. -/
theorem updated_at_overwritten_witness :
    update_updated_at_column 5 sampleEventReq ∈
      ({ emptyStore with
          events := [sampleEventUpd],
          profiles := [sampleProfile] } : Store).events ∧
    (update_updated_at_column 5 sampleEventReq).updated_at = 5 ∧
    update_updated_at_column_profile 5 sampleProfileReq ∈
      ({ emptyStore with
          events := [sampleEvent],
          profiles := [sampleProfileUpd] } : Store).profiles ∧
    (update_updated_at_column_profile 5 sampleProfileReq).updated_at = 5 ∧
    sampleEvent.updated_at <
      (update_updated_at_column 5 sampleEventReq).updated_at :=
  updated_at_overwritten (some 2) (fun e0 => e0.id == 1)
    (fun _ => sampleEventReq)
    (fun p0 => p0.user_id == 2)
    (fun _ => sampleProfileReq)
    5
    { emptyStore with events := [sampleEvent], profiles := [sampleProfile] }
    { emptyStore with
        events := [sampleEventUpd],
        profiles := [sampleProfile] }
    { emptyStore with
        events := [sampleEvent],
        profiles := [sampleProfileUpd] }
    sampleEvent sampleProfile
    rfl rfl (by decide) (by decide) (by decide) (by decide) (by decide)

/-- C6: deleting an existing event removes, with the event, every
registration and every notification row referencing it (ON DELETE
CASCADE), while rows referencing other events are kept exactly. -/
theorem delete_event_cascades (uid : Option UserId) (eid : EventId)
    (s s2 : Store) (hok : deleteEvents uid eid s = .ok s2)
    (hex : s.events.any (fun e => e.id == eid) = true) :
    (∀ e ∈ s2.events, e.id ≠ eid) ∧
    (∀ r ∈ s2.event_registrations, r.event_id ≠ eid) ∧
    (∀ n ∈ s2.event_notifications, n.event_id ≠ eid) ∧
    (∀ r ∈ s.event_registrations, r.event_id ≠ eid →
      r ∈ s2.event_registrations) ∧
    (∀ n ∈ s.event_notifications, n.event_id ≠ eid →
      n ∈ s2.event_notifications) ∧
    (∀ r ∈ s2.event_registrations, r ∈ s.event_registrations) ∧
    (∀ n ∈ s2.event_notifications, n ∈ s.event_notifications) := by
  unfold deleteEvents at hok
  by_cases hA :
      (s.events.any fun e => e.id == eid && !(events_delete_policy uid e))
        = true
  · rw [if_pos hA] at hok
    cases hok
  · rw [if_neg hA, if_pos hex] at hok
    cases hok
    unfold cascadeDeleteEvent
    refine ⟨?_, ?_, ?_, ?_, ?_, ?_, ?_⟩
    · intro e he
      have hpe := (List.mem_filter.mp he).2
      simpa using hpe
    · intro r hr
      have hpr := (List.mem_filter.mp hr).2
      simpa using hpr
    · intro n hn
      have hpn := (List.mem_filter.mp hn).2
      simpa using hpn
    · intro r hr hne
      exact List.mem_filter.mpr ⟨hr, by simpa using hne⟩
    · intro n hn hne
      exact List.mem_filter.mpr ⟨hn, by simpa using hne⟩
    · intro r hr
      exact (List.mem_filter.mp hr).1
    · intro n hn
      exact (List.mem_filter.mp hn).1

/-- C6 witness: user 2 deletes their event 1; its registration and
notification disappear while those of event 2 remain. -/
theorem delete_event_cascades_witness :
    (∀ e ∈ storeC6del.events, e.id ≠ 1) ∧
    (∀ r ∈ storeC6del.event_registrations, r.event_id ≠ 1) ∧
    (∀ n ∈ storeC6del.event_notifications, n.event_id ≠ 1) ∧
    (∀ r ∈ storeC6.event_registrations, r.event_id ≠ 1 →
      r ∈ storeC6del.event_registrations) ∧
    (∀ n ∈ storeC6.event_notifications, n.event_id ≠ 1 →
      n ∈ storeC6del.event_notifications) ∧
    (∀ r ∈ storeC6del.event_registrations,
      r ∈ storeC6.event_registrations) ∧
    (∀ n ∈ storeC6del.event_notifications,
      n ∈ storeC6.event_notifications) :=
  delete_event_cascades (some 2) 1 storeC6 storeC6del rfl (by decide)

/-- C7: a read of the notifications table returns only rows whose user_id
is the caller's identity, while an insert with a valid notification_type
succeeds for every caller and every target user (WITH CHECK (true)). -/
theorem notification_policies (uid : Option UserId) (s : Store)
    (n m : NotificationRow) (hm : m ∈ selectNotifs uid s)
    (hty : valid_notif_type n.notification_type = true) :
    uid = some m.user_id ∧
    ∃ s2, insertNotif uid n s = .ok s2 ∧
      s2.event_notifications = s.event_notifications ++ [n] := by
  constructor
  · unfold selectNotifs at hm
    have hpol := (List.mem_filter.mp hm).2
    rcases sqlEqU_true.mp hpol with ⟨w, hw1, hw2⟩
    rw [hw1]
    injection hw2 with h3
    rw [h3]
  · refine ⟨{ s with
        event_notifications := s.event_notifications ++ [n] }, ?_, rfl⟩
    simp [insertNotif, notifs_insert_check, hty]

/-- C7 witness: caller 3 reads their own notification, and inserts one
targeted at user 4. -/
theorem notification_policies_witness :
    some 3 = some sampleNotif.user_id ∧
    ∃ s2, insertNotif (some 3) { sampleNotif with id := 11, user_id := 4 }
        { emptyStore with event_notifications := [sampleNotif] } = .ok s2 ∧
      s2.event_notifications =
        [sampleNotif] ++ [{ sampleNotif with id := 11, user_id := 4 }] :=
  notification_policies (some 3)
    { emptyStore with event_notifications := [sampleNotif] }
    { sampleNotif with id := 11, user_id := 4 } sampleNotif
    (by decide) (by decide)

/-- C8: a write rejected by its policy is rejected atomically: the store
state after the rejected write equals the state before it and the caller
observes a policy-violation error, for each write operation of the
model. -/
theorem policy_violation_atomic (uid : Option UserId) (s : Store)
    (e : EventRow) (r : RegistrationRow) (p : ProfileRow)
    (pred : EventRow → Bool) (f : EventRow → EventRow)
    (ppred : ProfileRow → Bool) (g : ProfileRow → ProfileRow)
    (now : Time) (eid : EventId) (rid : Nat) :
    (events_insert_check uid e = false →
      applyWrite (insertEvent uid e) s = (s, some .policyViolation)) ∧
    (regs_insert_check uid r = false →
      applyWrite (insertRegistration uid r) s = (s, some .policyViolation)) ∧
    (profiles_policy uid p = false →
      applyWrite (insertProfile uid p) s = (s, some .policyViolation)) ∧
    (s.events.any (fun e0 => pred e0 && !(events_update_policy uid e0))
        = true →
      applyWrite (updateEvents uid pred f now) s
        = (s, some .policyViolation)) ∧
    (s.profiles.any (fun p0 => ppred p0 && !(profiles_policy uid p0))
        = true →
      applyWrite (updateProfiles uid ppred g now) s
        = (s, some .policyViolation)) ∧
    (s.events.any (fun e0 => e0.id == eid && !(events_delete_policy uid e0))
        = true →
      applyWrite (deleteEvents uid eid) s = (s, some .policyViolation)) ∧
    (s.event_registrations.any
        (fun r0 => r0.id == rid && !(regs_write_policy uid r0)) = true →
      applyWrite (deleteRegistration uid rid) s
        = (s, some .policyViolation)) := by
  refine ⟨?_, ?_, ?_, ?_, ?_, ?_, ?_⟩ <;> intro h
  · simp [applyWrite, insertEvent, h]
  · simp [applyWrite, insertRegistration, h]
  · simp [applyWrite, insertProfile, h]
  · simp [applyWrite, updateEvents, h]
  · simp [applyWrite, updateProfiles, h]
  · simp [applyWrite, deleteEvents, h]
  · simp [applyWrite, deleteRegistration, h]

/-- C8 witness: caller 1 attempts all seven writes against rows owned by
other users; each is rejected with a policy violation and the store is
unchanged. -/
theorem policy_violation_atomic_witness :
    applyWrite (insertEvent (some 1) sampleEvent) storeC8
      = (storeC8, some .policyViolation) ∧
    applyWrite (insertRegistration (some 1) sampleReg) storeC8
      = (storeC8, some .policyViolation) ∧
    applyWrite (insertProfile (some 1) sampleProfile) storeC8
      = (storeC8, some .policyViolation) ∧
    applyWrite (updateEvents (some 1) (fun _ => true) (fun x => x) 9) storeC8
      = (storeC8, some .policyViolation) ∧
    applyWrite (updateProfiles (some 1) (fun _ => true) (fun x => x) 9)
        storeC8 = (storeC8, some .policyViolation) ∧
    applyWrite (deleteEvents (some 1) 1) storeC8
      = (storeC8, some .policyViolation) ∧
    applyWrite (deleteRegistration (some 1) 5) storeC8
      = (storeC8, some .policyViolation) := by
  have h := policy_violation_atomic (some 1) storeC8 sampleEvent sampleReg
    sampleProfile (fun _ => true) (fun x => x) (fun _ => true) (fun x => x)
    9 1 5
  exact ⟨h.1 (by decide), h.2.1 (by decide), h.2.2.1 (by decide),
    h.2.2.2.1 (by decide), h.2.2.2.2.1 (by decide),
    h.2.2.2.2.2.1 (by decide), h.2.2.2.2.2.2 (by decide)⟩

/-- C9: every event returned by Calendar.fetchEvents starts at or after
the fetch time and has at least one registration row (the inner join),
and the returned list is sorted ascending by start_time. -/
theorem calendar_fetch_events (uid : Option UserId) (now : Time) (s : Store)
    (e : EventRow) (he : e ∈ fetchEvents uid now s) :
    now ≤ e.start_time ∧
    (∃ r ∈ s.event_registrations, r.event_id = e.id) ∧
    (fetchEvents uid now s).Pairwise
      (fun a b => a.start_time ≤ b.start_time) := by
  have hsorted : (fetchEvents uid now s).Pairwise
      (fun a b => a.start_time ≤ b.start_time) := by
    unfold fetchEvents
    refine List.Pairwise.imp ?_ (List.sorted_mergeSort ?_ ?_ _)
    · intro a b hab
      exact of_decide_eq_true hab
    · intro a b c hab hbc
      exact decide_eq_true
        (Nat.le_trans (of_decide_eq_true hab) (of_decide_eq_true hbc))
    · intro a b
      rcases Nat.le_total a.start_time b.start_time with hab | hba
      · simp [hab]
      · simp [hba]
  unfold fetchEvents at he
  have he2 := List.mem_mergeSort.mp he
  have hmem1 := (List.mem_filter.mp he2).1
  have hany := (List.mem_filter.mp he2).2
  have hts := (List.mem_filter.mp hmem1).2
  refine ⟨by simpa using hts, ?_, hsorted⟩
  rcases List.any_eq_true.mp hany with ⟨r, hr, hbeq⟩
  have hr1 : r ∈ s.event_registrations := (List.mem_filter.mp hr).1
  exact ⟨r, hr1, by simpa using hbeq⟩

/-- C9 witness: caller 3 at time 50 sees the public event 1 they are
registered for; the fetched list is sorted and the event has a
registration row. -/
theorem calendar_fetch_events_witness :
    50 ≤ sampleEvent.start_time ∧
    (∃ r ∈ storeC9.event_registrations, r.event_id = sampleEvent.id) ∧
    (fetchEvents (some 3) 50 storeC9).Pairwise
      (fun a b => a.start_time ≤ b.start_time) :=
  calendar_fetch_events (some 3) 50 storeC9 sampleEvent
    (by unfold fetchEvents; rw [List.mem_mergeSort]; decide)

/-- C10: the enabled Register button of EventDetails is shown only when
the caller has no status = "registered" row for the event, the event is
public, and the caller is not its creator; hence a creator never sees it
for their own event and nobody sees it for a private event. -/
theorem register_button_gating (uid : UserId) (e : EventRow) (s : Store)
    (h : registerOffered uid e s = true) :
    (∀ r ∈ s.event_registrations,
      ¬ (r.event_id = e.id ∧ r.user_id = uid ∧ r.status = "registered")) ∧
    e.is_public = some true ∧
    e.created_by ≠ some uid := by
  unfold registerOffered canRegister at h
  simp only [Bool.and_eq_true] at h
  obtain ⟨⟨⟨hnone, hpub⟩, hcreator⟩, -⟩ := h
  refine ⟨?_, ?_, ?_⟩
  · rintro r hr ⟨h1, h2, h3⟩
    have hfind := Option.isNone_iff_eq_none.mp hnone
    unfold userRegistration at hfind
    rw [List.find?_eq_none] at hfind
    exact hfind r hr (by simp [h1, h2, h3])
  · exact beq_iff_eq.mp hpub
  · intro hcb
    rw [Bool.not_eq_true'] at hcreator
    unfold isEventCreator at hcreator
    rw [beq_eq_false_iff_ne] at hcreator
    exact hcreator hcb.symm

/-- C10 witness: for the public event of user 2, caller 3 with no
registration row is offered the Register action, and the gating
conditions hold. -/
theorem register_button_gating_witness :
    (∀ r ∈ ({ emptyStore with events := [sampleEvent] } : Store).event_registrations,
      ¬ (r.event_id = sampleEvent.id ∧ r.user_id = 3 ∧
        r.status = "registered")) ∧
    sampleEvent.is_public = some true ∧
    sampleEvent.created_by ≠ some 3 :=
  register_button_gating 3 sampleEvent
    { emptyStore with events := [sampleEvent] } (by decide)

end CalendarAid
